import Mathlib

/-!
Verification of the composite scoring and classification engine of the
stock-report repository.

Shallow embedding conventions:
* Python floats are modelled as rationals (ℚ); a float that may be NaN
  (the "not available" sentinel produced by `safe_float` / missing data)
  is modelled as `Option ℚ` with `none` standing for NaN.
* pandas Series columns are modelled as functions `ℕ → Option ℚ` indexed
  by (sorted) row position; NaN propagation of pandas arithmetic is
  modelled by explicit `Option` matching.
* Driver / label strings reproduce the Korean text of the source; the
  fixed-point decimal formatting of the source helper `fmt` is
  presentation-only and abstracted to `toString` of the rational value.
-/

namespace StockReport

/-- Mean of a list of rationals (`Series.mean`): sum divided by length. -/
def meanQ (l : List ℚ) : ℚ := l.sum / l.length

/-- pandas two-sided `clip(lo, hi)`. -/
def clipQ (lo hi x : ℚ) : ℚ := max lo (min hi x)

/-- Source `fmt(v, nd)` of report_generator.py: renders a number for a
driver string ("NaN" for the unavailable value).  The fixed-point decimal
formatting is presentation-only and abstracted to `toString`. -/
def fmt (v : Option ℚ) : String :=
  match v with
  | none => "NaN"
  | some x => toString x

/-- Source `pct(a, b)` of report_generator.py (lines 97-103): percentage
return `(a/b - 1) * 100`; NaN when either operand is unavailable or the
baseline `b` is exactly zero. -/
def pct (a b : Option ℚ) : Option ℚ :=
  match a, b with
  | some x, some y => if y = 0 then none else some ((x / y - 1) * 100)
  | _, _ => none

/-- Source `clamp_score(x)` of report_generator.py (lines 564-566):
`int(max(0, min(100, x)))` on an integer accumulator. -/
def clamp_score (x : ℤ) : ℤ := max 0 (min 100 x)

/- ===== Composite banding (marketSummary.composite_band, lines 301-316,
   duplicated as report_generator._ms_composite_band, lines 1587-1603) ===== -/

def band_insufficient : String := "데이터 부족"

def band_strong_bull : String := "강한 상승 우위"

def band_bull : String := "상승 우위"

def band_weak_bull : String := "약한 상승"

def band_strong_bear : String := "강한 하락 우위"

def band_bear : String := "하락 우위"

def band_weak_bear : String := "약한 하락"

def band_neutral : String := "중립"

/-- Source `composite_band(c)` of marketSummary.py (lines 301-316): maps a
composite value (NaN allowed) to a qualitative regime string. -/
def composite_band (c : Option ℚ) : String :=
  match c with
  | none => band_insufficient
  | some c =>
    if c ≥ 40 then band_strong_bull
    else if c ≥ 20 then band_bull
    else if c ≥ 5 then band_weak_bull
    else if c ≤ -40 then band_strong_bear
    else if c ≤ -20 then band_bear
    else if c ≤ -5 then band_weak_bear
    else band_neutral

/-- Source `_ms_composite_band(c)` of report_generator.py (lines
1587-1603), a verbatim duplicate of `composite_band`. -/
def ms_composite_band (c : Option ℚ) : String :=
  match c with
  | none => band_insufficient
  | some c =>
    if c ≥ 40 then band_strong_bull
    else if c ≥ 20 then band_bull
    else if c ≥ 5 then band_weak_bull
    else if c ≤ -40 then band_strong_bear
    else if c ≤ -20 then band_bear
    else if c ≤ -5 then band_weak_bear
    else band_neutral

/-- C3: the composite banding function is total on the rationals plus the
"not available" value and maps ≥40 to strong bullish, [20,40) to bullish,
[5,20) to weakly bullish, (-5,5) to neutral, (-20,-5] to weakly bearish,
(-40,-20] to bearish, ≤-40 to strong bearish, NaN to the distinct
"insufficient data" band; the duplicate `_ms_composite_band` agrees. -/
theorem composite_band_table (c : ℚ) :
    composite_band none = band_insufficient ∧
    (40 ≤ c → composite_band (some c) = band_strong_bull) ∧
    (20 ≤ c → c < 40 → composite_band (some c) = band_bull) ∧
    (5 ≤ c → c < 20 → composite_band (some c) = band_weak_bull) ∧
    (-5 < c → c < 5 → composite_band (some c) = band_neutral) ∧
    (-20 < c → c ≤ -5 → composite_band (some c) = band_weak_bear) ∧
    (-40 < c → c ≤ -20 → composite_band (some c) = band_bear) ∧
    (c ≤ -40 → composite_band (some c) = band_strong_bear) ∧
    ms_composite_band (some c) = composite_band (some c) ∧
    ms_composite_band none = composite_band none := by
  refine ⟨rfl, ?_, ?_, ?_, ?_, ?_, ?_, ?_, rfl, rfl⟩ <;>
    (intros; simp only [composite_band]; split_ifs <;> first | rfl | linarith)

/-- Witness for C3: each inclusive boundary value maps to the band whose
boundary it matches. -/
theorem composite_band_table_witness :
    composite_band (some 40) = band_strong_bull ∧
    composite_band (some 20) = band_bull ∧
    composite_band (some 5) = band_weak_bull ∧
    composite_band (some (-5)) = band_weak_bear ∧
    composite_band (some (-20)) = band_bear ∧
    composite_band (some (-40)) = band_strong_bear :=
  ⟨(composite_band_table 40).2.1 (by norm_num),
   (composite_band_table 20).2.2.1 (by norm_num) (by norm_num),
   (composite_band_table 5).2.2.2.1 (by norm_num) (by norm_num),
   (composite_band_table (-5)).2.2.2.2.2.1 (by norm_num) (by norm_num),
   (composite_band_table (-20)).2.2.2.2.2.2.1 (by norm_num) (by norm_num),
   (composite_band_table (-40)).2.2.2.2.2.2.2.1 (by norm_num)⟩

/- ===== Rule-based scorers (report_generator.score_kospi lines 588-691,
   report_generator.score_kosdaq lines 693-744; getUpAndDownReport.py
   holds verbatim duplicates at lines 243-348 and 350-403) ===== -/

/-- Contribution of one threshold rule: points added to the upside and
downside accumulators and the driver strings appended to each list. -/
structure Contrib where
  up : ℤ
  down : ℤ
  du : List String
  dd : List String
deriving Repr, DecidableEq

/-- The null contribution of a rule that does not fire. -/
def Contrib.zero : Contrib := ⟨0, 0, [], []⟩

/-- Sequential combination: accumulators add, driver lists append in rule
evaluation order. -/
def Contrib.add (a b : Contrib) : Contrib :=
  ⟨a.up + b.up, a.down + b.down, a.du ++ b.du, a.dd ++ b.dd⟩

/-- A rule firing on the upside: `up += p; du.append(d)`. -/
def upC (p : ℤ) (d : String) : Contrib := ⟨p, 0, [d], []⟩

/-- A rule firing on the downside: `down += p; dd.append(d)`. -/
def downC (p : ℤ) (d : String) : Contrib := ⟨0, p, [], [d]⟩

/-- Signal mapping read by `score_kospi` / `score_kosdaq` from the global
signal dictionary: each field is `safe_float(global_s[key]["value"])`,
`none` standing for NaN. -/
structure GlobalSignals where
  ES_ret_d : Option ℚ
  NQ_ret_d : Option ℚ
  ES_ret_4h : Option ℚ
  NQ_ret_4h : Option ℚ
  BTC_ret_d : Option ℚ
  BTC_ret_3h : Option ℚ
  TNX_chg_bps : Option ℚ
  VIX_lvl : Option ℚ
  VIX9D_lvl : Option ℚ
  VIX_spread : Option ℚ
  MOVE_lvl : Option ℚ
  USDKRW_diff : Option ℚ
  DXY_dd : Option ℚ
  KOSPI200_ret_d : Option ℚ

/-- KOSDAQ-specific signal mapping read by `score_kosdaq`. -/
structure KosdaqSignals where
  KOSDAQ150_ret_d : Option ℚ
  KOSDAQ150_ATR5_pct : Option ℚ
  KOSDAQ150_long_red : Option ℚ

/-- KOSPI rule on `ES_ret_d` (S&P500 futures daily return). -/
def kospiRule_ES_d : Option ℚ → Contrib
  | none => Contrib.zero
  | some x =>
    if x ≥ 1.0 then upC 12 ("S&P500 선물 일간 강세 (" ++ fmt (some x) ++ "%)")
    else if x ≤ -1.0 then downC 12 ("S&P500 선물 일간 약세 (" ++ fmt (some x) ++ "%)")
    else Contrib.zero

/-- KOSPI rule on `NQ_ret_d` (Nasdaq futures daily return). -/
def kospiRule_NQ_d : Option ℚ → Contrib
  | none => Contrib.zero
  | some x =>
    if x ≥ 1.5 then upC 15 ("나스닥 선물 일간 강세 (" ++ fmt (some x) ++ "%)")
    else if x ≤ -1.5 then downC 15 ("나스닥 선물 일간 급락 (" ++ fmt (some x) ++ "%)")
    else Contrib.zero

/-- KOSPI rule on `ES_ret_4h` (S&P500 futures overnight 4h move). -/
def kospiRule_ES_4h : Option ℚ → Contrib
  | none => Contrib.zero
  | some x =>
    if x ≥ 0.8 then upC 8 ("S&P500 선물 야간(4h) 강세 (" ++ fmt (some x) ++ "%)")
    else if x ≤ -0.8 then downC 8 ("S&P500 선물 야간(4h) 급락 (" ++ fmt (some x) ++ "%)")
    else Contrib.zero

/-- KOSPI rule on `NQ_ret_4h` (Nasdaq futures overnight 4h move),
source lines 617-621: 10 points each way. -/
def kospiRule_NQ_4h : Option ℚ → Contrib
  | none => Contrib.zero
  | some x =>
    if x ≥ 1.2 then upC 10 ("나스닥 선물 야간(4h) 강세 (" ++ fmt (some x) ++ "%)")
    else if x ≤ -1.2 then downC 10 ("나스닥 선물 야간(4h) 급락 (" ++ fmt (some x) ++ "%)")
    else Contrib.zero

/-- KOSPI rule on `BTC_ret_d`. -/
def kospiRule_BTC_d : Option ℚ → Contrib
  | none => Contrib.zero
  | some x =>
    if x ≥ 7 then upC 6 ("BTC 일간 급등 → 위험선호 (" ++ fmt (some x) ++ "%)")
    else if x ≤ -7 then downC 6 ("BTC 일간 급락 → 위험회피 (" ++ fmt (some x) ++ "%)")
    else Contrib.zero

/-- KOSPI rule on `BTC_ret_3h`. -/
def kospiRule_BTC_3h : Option ℚ → Contrib
  | none => Contrib.zero
  | some x =>
    if x ≥ 4 then upC 3 ("BTC 단기(3h) 급등 (" ++ fmt (some x) ++ "%)")
    else if x ≤ -4 then downC 3 ("BTC 단기(3h) 급락 (" ++ fmt (some x) ++ "%)")
    else Contrib.zero

/-- KOSPI rule on `TNX_chg_bps` (US 10y yield change, bps). -/
def kospiRule_TNX : Option ℚ → Contrib
  | none => Contrib.zero
  | some x =>
    if x ≥ 10 then downC 10 ("미 10년물 금리 급등 (Δ " ++ fmt (some x) ++ "bp)")
    else if x ≤ -8 then upC 6 ("미 10년물 금리 하락 (Δ " ++ fmt (some x) ++ "bp)")
    else Contrib.zero

/-- KOSPI rule on `VIX_lvl`. -/
def kospiRule_VIX : Option ℚ → Contrib
  | none => Contrib.zero
  | some x =>
    if x ≥ 22 then downC 8 ("VIX 높은 수준 (VIX=" ++ fmt (some x) ++ ")")
    else if x ≤ 14 then upC 3 ("VIX 낮은 수준 (VIX=" ++ fmt (some x) ++ ")")
    else Contrib.zero

/-- KOSPI rule on `VIX9D_lvl`. -/
def kospiRule_V9 : Option ℚ → Contrib
  | none => Contrib.zero
  | some x =>
    if x ≥ 25 then downC 10 ("VIX9D 상승 → 단기 이벤트 리스크 (VIX9D=" ++ fmt (some x) ++ ")")
    else if x ≤ 15 then upC 3 ("VIX9D 안정 (VIX9D=" ++ fmt (some x) ++ ")")
    else Contrib.zero

/-- KOSPI rule on `VIX_spread` (VIX9D - VIX). -/
def kospiRule_SP : Option ℚ → Contrib
  | none => Contrib.zero
  | some x =>
    if x ≥ 3 then downC 5 ("단기 변동성 스프레드 확대 (VIX9D-VIX=" ++ fmt (some x) ++ "pt)")
    else Contrib.zero

/-- KOSPI rule on `MOVE_lvl`. -/
def kospiRule_MOVE : Option ℚ → Contrib
  | none => Contrib.zero
  | some x =>
    if x ≥ 130 then downC 10 ("MOVE 매우 높음 → 채권/금리 불안 (MOVE=" ++ fmt (some x) ++ ")")
    else if x ≤ 90 then upC 3 ("MOVE 낮음 → 채권 변동성 안정 (MOVE=" ++ fmt (some x) ++ ")")
    else Contrib.zero

/-- KOSPI rule on `USDKRW_diff`. -/
def kospiRule_USDKRW : Option ℚ → Contrib
  | none => Contrib.zero
  | some x =>
    if x ≥ 8 then downC 8 ("원화 급약세 → 외국인 매도압력 (Δ " ++ fmt (some x) ++ "원)")
    else if x ≤ -8 then upC 5 ("원화 강세 → 위험선호 여지 (Δ " ++ fmt (some x) ++ "원)")
    else Contrib.zero

/-- KOSPI rule on `DXY_dd`. -/
def kospiRule_DXY : Option ℚ → Contrib
  | none => Contrib.zero
  | some x =>
    if x ≥ 0.7 then downC 6 ("DXY 급등 → 글로벌 위험회피 (DXY " ++ fmt (some x) ++ "%)")
    else if x ≤ -0.7 then upC 6 ("DXY 하락 → 위험자산 선호 (DXY " ++ fmt (some x) ++ "%)")
    else Contrib.zero

/-- KOSPI rule on `KOSPI200_ret_d`. -/
def kospiRule_K200 : Option ℚ → Contrib
  | none => Contrib.zero
  | some x =>
    if x ≥ 1.5 then upC 6 ("KOSPI200 단기 강세 (" ++ fmt (some x) ++ "%)")
    else if x ≤ -1.5 then downC 6 ("KOSPI200 단기 약세 (" ++ fmt (some x) ++ "%)")
    else Contrib.zero

/-- The unclamped accumulators and driver lists of `score_kospi`: the 14
threshold rules evaluated in source order. -/
def score_kospi_raw (gs : GlobalSignals) : Contrib :=
  [kospiRule_ES_d gs.ES_ret_d,
   kospiRule_NQ_d gs.NQ_ret_d,
   kospiRule_ES_4h gs.ES_ret_4h,
   kospiRule_NQ_4h gs.NQ_ret_4h,
   kospiRule_BTC_d gs.BTC_ret_d,
   kospiRule_BTC_3h gs.BTC_ret_3h,
   kospiRule_TNX gs.TNX_chg_bps,
   kospiRule_VIX gs.VIX_lvl,
   kospiRule_V9 gs.VIX9D_lvl,
   kospiRule_SP gs.VIX_spread,
   kospiRule_MOVE gs.MOVE_lvl,
   kospiRule_USDKRW gs.USDKRW_diff,
   kospiRule_DXY gs.DXY_dd,
   kospiRule_K200 gs.KOSPI200_ret_d].foldl Contrib.add Contrib.zero

/-- Source `score_kospi(global_s)` (report_generator.py lines 588-691):
returns `(clamp_score(up), clamp_score(down), du, dd)`. -/
def score_kospi (gs : GlobalSignals) : ℤ × ℤ × List String × List String :=
  let r := score_kospi_raw gs
  (clamp_score r.up, clamp_score r.down, r.du, r.dd)

/-- KOSDAQ rule on `NQ_ret_d`: 14 points each way. -/
def kosdaqRule_NQ_d : Option ℚ → Contrib
  | none => Contrib.zero
  | some x =>
    if x ≥ 1.5 then upC 14 ("나스닥 선물 강세 → 성장주 우호 (" ++ fmt (some x) ++ "%)")
    else if x ≤ -1.5 then downC 14 ("나스닥 선물 급락 → 성장주 타격 (" ++ fmt (some x) ++ "%)")
    else Contrib.zero

/-- KOSDAQ rule on `NQ_ret_4h` (Nasdaq futures overnight 4h move),
source lines 707-711: 8 points each way. -/
def kosdaqRule_NQ_4h : Option ℚ → Contrib
  | none => Contrib.zero
  | some x =>
    if x ≥ 1.2 then upC 8 ("나스닥 야간(4h) 강세 (" ++ fmt (some x) ++ "%)")
    else if x ≤ -1.2 then downC 8 ("나스닥 야간(4h) 급락 (" ++ fmt (some x) ++ "%)")
    else Contrib.zero

/-- KOSDAQ rule on `VIX9D_lvl` (downside only). -/
def kosdaqRule_V9 : Option ℚ → Contrib
  | none => Contrib.zero
  | some x =>
    if x ≥ 25 then downC 10 ("VIX9D 상승 → 단기 충격에 취약 (VIX9D=" ++ fmt (some x) ++ ")")
    else Contrib.zero

/-- KOSDAQ rule on `MOVE_lvl` (downside only). -/
def kosdaqRule_MOVE : Option ℚ → Contrib
  | none => Contrib.zero
  | some x =>
    if x ≥ 130 then downC 8 ("MOVE 높음 → 매크로 불안 (MOVE=" ++ fmt (some x) ++ ")")
    else Contrib.zero

/-- KOSDAQ rule on `USDKRW_diff` (downside only). -/
def kosdaqRule_USDKRW : Option ℚ → Contrib
  | none => Contrib.zero
  | some x =>
    if x ≥ 8 then downC 6 ("원화 급약세 → 코스닥 회피 가능성 (Δ " ++ fmt (some x) ++ "원)")
    else Contrib.zero

/-- KOSDAQ rule on `KOSDAQ150_ret_d`. -/
def kosdaqRule_KQ_ret : Option ℚ → Contrib
  | none => Contrib.zero
  | some x =>
    if x ≥ 2.0 then upC 14 ("KOSDAQ150 강세 → 코스닥 모멘텀 (+" ++ fmt (some x) ++ "%)")
    else if x ≤ -2.0 then downC 14 ("KOSDAQ150 급락 → 코스닥 모멘텀 약화 (" ++ fmt (some x) ++ "%)")
    else Contrib.zero

/-- KOSDAQ rule on `KOSDAQ150_ATR5_pct` together with `KOSDAQ150_ret_d`:
`if not isnan(ATR): if ATR >= 3.5 and not isnan(KQ_ret) and KQ_ret <= -1:
down += 12 elif ATR >= 3.5 and not isnan(KQ_ret) and KQ_ret >= 1: up += 10`. -/
def kosdaqRule_ATR : Option ℚ → Option ℚ → Contrib
  | none, _ => Contrib.zero
  | some atr, kq =>
    match kq with
    | none => Contrib.zero
    | some k =>
      if atr ≥ 3.5 ∧ k ≤ -1.0 then
        downC 12 ("변동성(ATR%) 높고 하락 동반 → 급락 확대 위험 (ATR=" ++ fmt (some atr) ++ "%)")
      else if atr ≥ 3.5 ∧ k ≥ 1.0 then
        upC 10 ("변동성(ATR%) 높고 상승 동반 → 돌파형 강세 가능 (ATR=" ++ fmt (some atr) ++ "%)")
      else Contrib.zero

/-- KOSDAQ rule on `KOSDAQ150_long_red`: fires iff the signal value is
exactly 1 (`safe_float(v) == 1.0` is false on NaN). -/
def kosdaqRule_long_red (v : Option ℚ) : Contrib :=
  if v = some 1 then downC 12 ("장대 음봉 출현 → 단기 조정/공포 확산 가능성")
  else Contrib.zero

/-- The unclamped accumulators and driver lists of `score_kosdaq`: the 8
threshold rules evaluated in source order. -/
def score_kosdaq_raw (gs : GlobalSignals) (ks : KosdaqSignals) : Contrib :=
  [kosdaqRule_NQ_d gs.NQ_ret_d,
   kosdaqRule_NQ_4h gs.NQ_ret_4h,
   kosdaqRule_V9 gs.VIX9D_lvl,
   kosdaqRule_MOVE gs.MOVE_lvl,
   kosdaqRule_USDKRW gs.USDKRW_diff,
   kosdaqRule_KQ_ret ks.KOSDAQ150_ret_d,
   kosdaqRule_ATR ks.KOSDAQ150_ATR5_pct ks.KOSDAQ150_ret_d,
   kosdaqRule_long_red ks.KOSDAQ150_long_red].foldl Contrib.add Contrib.zero

/-- Source `score_kosdaq(global_s, kosdaq_s)` (report_generator.py lines
693-744, duplicated in getUpAndDownReport.py lines 350-403): returns
`(clamp_score(up), clamp_score(down), du, dd)`. -/
def score_kosdaq (gs : GlobalSignals) (ks : KosdaqSignals) :
    ℤ × ℤ × List String × List String :=
  let r := score_kosdaq_raw gs ks
  (clamp_score r.up, clamp_score r.down, r.du, r.dd)

/-- Per-rule invariant: accumulator contributions are nonnegative and a
driver is appended exactly when points are added on the same side. -/
def Contrib.good (c : Contrib) : Prop :=
  0 ≤ c.up ∧ 0 ≤ c.down ∧ (c.du = [] ↔ c.up = 0) ∧ (c.dd = [] ↔ c.down = 0)

lemma good_zero : Contrib.zero.good := by
  simp [Contrib.good, Contrib.zero]

lemma good_upC (p : ℤ) (hp : 0 < p) (d : String) : (upC p d).good := by
  simp only [Contrib.good, upC]
  refine ⟨by omega, le_refl 0, by simp; omega, by simp⟩

lemma good_downC (p : ℤ) (hp : 0 < p) (d : String) : (downC p d).good := by
  simp only [Contrib.good, downC]
  refine ⟨le_refl 0, by omega, by simp, by simp; omega⟩

lemma good_add {a b : Contrib} (ha : a.good) (hb : b.good) :
    (a.add b).good := by
  obtain ⟨ha1, ha2, ha3, ha4⟩ := ha
  obtain ⟨hb1, hb2, hb3, hb4⟩ := hb
  refine ⟨?_, ?_, ?_, ?_⟩
  · simp only [Contrib.add]; omega
  · simp only [Contrib.add]; omega
  · simp only [Contrib.add, List.append_eq_nil, ha3, hb3]; omega
  · simp only [Contrib.add, List.append_eq_nil, ha4, hb4]; omega

lemma good_foldl (l : List Contrib) (acc : Contrib) (hacc : acc.good)
    (hl : ∀ c ∈ l, c.good) : (l.foldl Contrib.add acc).good := by
  induction l generalizing acc with
  | nil => exact hacc
  | cons h t ih =>
    exact ih _ (good_add hacc (hl h (by simp))) (fun c hc => hl c (by simp [hc]))

lemma kospiRule_ES_d_good (v : Option ℚ) : (kospiRule_ES_d v).good := by
  cases v with
  | none => exact good_zero
  | some x =>
    simp only [kospiRule_ES_d]
    split_ifs <;>
      first
        | exact good_upC _ (by norm_num) _
        | exact good_downC _ (by norm_num) _
        | exact good_zero

lemma kospiRule_NQ_d_good (v : Option ℚ) : (kospiRule_NQ_d v).good := by
  cases v with
  | none => exact good_zero
  | some x =>
    simp only [kospiRule_NQ_d]
    split_ifs <;>
      first
        | exact good_upC _ (by norm_num) _
        | exact good_downC _ (by norm_num) _
        | exact good_zero

lemma kospiRule_ES_4h_good (v : Option ℚ) : (kospiRule_ES_4h v).good := by
  cases v with
  | none => exact good_zero
  | some x =>
    simp only [kospiRule_ES_4h]
    split_ifs <;>
      first
        | exact good_upC _ (by norm_num) _
        | exact good_downC _ (by norm_num) _
        | exact good_zero

lemma kospiRule_NQ_4h_good (v : Option ℚ) : (kospiRule_NQ_4h v).good := by
  cases v with
  | none => exact good_zero
  | some x =>
    simp only [kospiRule_NQ_4h]
    split_ifs <;>
      first
        | exact good_upC _ (by norm_num) _
        | exact good_downC _ (by norm_num) _
        | exact good_zero

lemma kospiRule_BTC_d_good (v : Option ℚ) : (kospiRule_BTC_d v).good := by
  cases v with
  | none => exact good_zero
  | some x =>
    simp only [kospiRule_BTC_d]
    split_ifs <;>
      first
        | exact good_upC _ (by norm_num) _
        | exact good_downC _ (by norm_num) _
        | exact good_zero

lemma kospiRule_BTC_3h_good (v : Option ℚ) : (kospiRule_BTC_3h v).good := by
  cases v with
  | none => exact good_zero
  | some x =>
    simp only [kospiRule_BTC_3h]
    split_ifs <;>
      first
        | exact good_upC _ (by norm_num) _
        | exact good_downC _ (by norm_num) _
        | exact good_zero

lemma kospiRule_TNX_good (v : Option ℚ) : (kospiRule_TNX v).good := by
  cases v with
  | none => exact good_zero
  | some x =>
    simp only [kospiRule_TNX]
    split_ifs <;>
      first
        | exact good_upC _ (by norm_num) _
        | exact good_downC _ (by norm_num) _
        | exact good_zero

lemma kospiRule_VIX_good (v : Option ℚ) : (kospiRule_VIX v).good := by
  cases v with
  | none => exact good_zero
  | some x =>
    simp only [kospiRule_VIX]
    split_ifs <;>
      first
        | exact good_upC _ (by norm_num) _
        | exact good_downC _ (by norm_num) _
        | exact good_zero

lemma kospiRule_V9_good (v : Option ℚ) : (kospiRule_V9 v).good := by
  cases v with
  | none => exact good_zero
  | some x =>
    simp only [kospiRule_V9]
    split_ifs <;>
      first
        | exact good_upC _ (by norm_num) _
        | exact good_downC _ (by norm_num) _
        | exact good_zero

lemma kospiRule_SP_good (v : Option ℚ) : (kospiRule_SP v).good := by
  cases v with
  | none => exact good_zero
  | some x =>
    simp only [kospiRule_SP]
    split_ifs <;>
      first
        | exact good_downC _ (by norm_num) _
        | exact good_zero

lemma kospiRule_MOVE_good (v : Option ℚ) : (kospiRule_MOVE v).good := by
  cases v with
  | none => exact good_zero
  | some x =>
    simp only [kospiRule_MOVE]
    split_ifs <;>
      first
        | exact good_upC _ (by norm_num) _
        | exact good_downC _ (by norm_num) _
        | exact good_zero

lemma kospiRule_USDKRW_good (v : Option ℚ) : (kospiRule_USDKRW v).good := by
  cases v with
  | none => exact good_zero
  | some x =>
    simp only [kospiRule_USDKRW]
    split_ifs <;>
      first
        | exact good_upC _ (by norm_num) _
        | exact good_downC _ (by norm_num) _
        | exact good_zero

lemma kospiRule_DXY_good (v : Option ℚ) : (kospiRule_DXY v).good := by
  cases v with
  | none => exact good_zero
  | some x =>
    simp only [kospiRule_DXY]
    split_ifs <;>
      first
        | exact good_upC _ (by norm_num) _
        | exact good_downC _ (by norm_num) _
        | exact good_zero

lemma kospiRule_K200_good (v : Option ℚ) : (kospiRule_K200 v).good := by
  cases v with
  | none => exact good_zero
  | some x =>
    simp only [kospiRule_K200]
    split_ifs <;>
      first
        | exact good_upC _ (by norm_num) _
        | exact good_downC _ (by norm_num) _
        | exact good_zero

lemma kosdaqRule_NQ_d_good (v : Option ℚ) : (kosdaqRule_NQ_d v).good := by
  cases v with
  | none => exact good_zero
  | some x =>
    simp only [kosdaqRule_NQ_d]
    split_ifs <;>
      first
        | exact good_upC _ (by norm_num) _
        | exact good_downC _ (by norm_num) _
        | exact good_zero

lemma kosdaqRule_NQ_4h_good (v : Option ℚ) : (kosdaqRule_NQ_4h v).good := by
  cases v with
  | none => exact good_zero
  | some x =>
    simp only [kosdaqRule_NQ_4h]
    split_ifs <;>
      first
        | exact good_upC _ (by norm_num) _
        | exact good_downC _ (by norm_num) _
        | exact good_zero

lemma kosdaqRule_V9_good (v : Option ℚ) : (kosdaqRule_V9 v).good := by
  cases v with
  | none => exact good_zero
  | some x =>
    simp only [kosdaqRule_V9]
    split_ifs <;>
      first
        | exact good_downC _ (by norm_num) _
        | exact good_zero

lemma kosdaqRule_MOVE_good (v : Option ℚ) : (kosdaqRule_MOVE v).good := by
  cases v with
  | none => exact good_zero
  | some x =>
    simp only [kosdaqRule_MOVE]
    split_ifs <;>
      first
        | exact good_downC _ (by norm_num) _
        | exact good_zero

lemma kosdaqRule_USDKRW_good (v : Option ℚ) : (kosdaqRule_USDKRW v).good := by
  cases v with
  | none => exact good_zero
  | some x =>
    simp only [kosdaqRule_USDKRW]
    split_ifs <;>
      first
        | exact good_downC _ (by norm_num) _
        | exact good_zero

lemma kosdaqRule_KQ_ret_good (v : Option ℚ) : (kosdaqRule_KQ_ret v).good := by
  cases v with
  | none => exact good_zero
  | some x =>
    simp only [kosdaqRule_KQ_ret]
    split_ifs <;>
      first
        | exact good_upC _ (by norm_num) _
        | exact good_downC _ (by norm_num) _
        | exact good_zero

lemma kosdaqRule_ATR_good (a k : Option ℚ) : (kosdaqRule_ATR a k).good := by
  cases a with
  | none => exact good_zero
  | some atr =>
    cases k with
    | none => exact good_zero
    | some x =>
      simp only [kosdaqRule_ATR]
      split_ifs <;>
        first
          | exact good_upC _ (by norm_num) _
          | exact good_downC _ (by norm_num) _
          | exact good_zero

lemma kosdaqRule_long_red_good (v : Option ℚ) : (kosdaqRule_long_red v).good := by
  simp only [kosdaqRule_long_red]
  split_ifs <;>
    first
      | exact good_downC _ (by norm_num) _
      | exact good_zero

lemma good_raw_kospi (gs : GlobalSignals) : (score_kospi_raw gs).good := by
  unfold score_kospi_raw
  apply good_foldl _ _ good_zero
  intro c hc
  simp only [List.mem_cons, List.not_mem_nil, or_false] at hc
  rcases hc with rfl | rfl | rfl | rfl | rfl | rfl | rfl | rfl | rfl | rfl | rfl | rfl | rfl | rfl
  exacts [kospiRule_ES_d_good _, kospiRule_NQ_d_good _, kospiRule_ES_4h_good _,
    kospiRule_NQ_4h_good _, kospiRule_BTC_d_good _, kospiRule_BTC_3h_good _,
    kospiRule_TNX_good _, kospiRule_VIX_good _, kospiRule_V9_good _,
    kospiRule_SP_good _, kospiRule_MOVE_good _, kospiRule_USDKRW_good _,
    kospiRule_DXY_good _, kospiRule_K200_good _]

lemma good_raw_kosdaq (gs : GlobalSignals) (ks : KosdaqSignals) :
    (score_kosdaq_raw gs ks).good := by
  unfold score_kosdaq_raw
  apply good_foldl _ _ good_zero
  intro c hc
  simp only [List.mem_cons, List.not_mem_nil, or_false] at hc
  rcases hc with rfl | rfl | rfl | rfl | rfl | rfl | rfl | rfl
  exacts [kosdaqRule_NQ_d_good _, kosdaqRule_NQ_4h_good _, kosdaqRule_V9_good _,
    kosdaqRule_MOVE_good _, kosdaqRule_USDKRW_good _, kosdaqRule_KQ_ret_good _,
    kosdaqRule_ATR_good _ _, kosdaqRule_long_red_good _]

lemma clamp_score_nonneg (x : ℤ) : 0 ≤ clamp_score x := le_max_left 0 _

lemma clamp_score_le_100 (x : ℤ) : clamp_score x ≤ 100 :=
  max_le (by norm_num) (min_le_left _ _)

/-- C1: for every input signal mapping, `score_kospi` and `score_kosdaq`
return integer upside and downside scores in [0,100]; each score is the
single final clamp of its independently accumulated unclamped sum. -/
theorem score_bounds_clamped (gs : GlobalSignals) (ks : KosdaqSignals) :
    0 ≤ (score_kospi gs).1 ∧ (score_kospi gs).1 ≤ 100 ∧
    0 ≤ (score_kospi gs).2.1 ∧ (score_kospi gs).2.1 ≤ 100 ∧
    0 ≤ (score_kosdaq gs ks).1 ∧ (score_kosdaq gs ks).1 ≤ 100 ∧
    0 ≤ (score_kosdaq gs ks).2.1 ∧ (score_kosdaq gs ks).2.1 ≤ 100 ∧
    (score_kospi gs).1 = clamp_score (score_kospi_raw gs).up ∧
    (score_kospi gs).2.1 = clamp_score (score_kospi_raw gs).down ∧
    (score_kosdaq gs ks).1 = clamp_score (score_kosdaq_raw gs ks).up ∧
    (score_kosdaq gs ks).2.1 = clamp_score (score_kosdaq_raw gs ks).down :=
  ⟨clamp_score_nonneg _, clamp_score_le_100 _,
   clamp_score_nonneg _, clamp_score_le_100 _,
   clamp_score_nonneg _, clamp_score_le_100 _,
   clamp_score_nonneg _, clamp_score_le_100 _,
   rfl, rfl, rfl, rfl⟩

/-- C5: every rule of both scorers is skipped entirely (no accumulator
change, no driver) when any signal it references is unavailable. -/
theorem missing_signal_skip (x : ℚ) (v : Option ℚ) :
    kospiRule_ES_d none = Contrib.zero ∧
    kospiRule_NQ_d none = Contrib.zero ∧
    kospiRule_ES_4h none = Contrib.zero ∧
    kospiRule_NQ_4h none = Contrib.zero ∧
    kospiRule_BTC_d none = Contrib.zero ∧
    kospiRule_BTC_3h none = Contrib.zero ∧
    kospiRule_TNX none = Contrib.zero ∧
    kospiRule_VIX none = Contrib.zero ∧
    kospiRule_V9 none = Contrib.zero ∧
    kospiRule_SP none = Contrib.zero ∧
    kospiRule_MOVE none = Contrib.zero ∧
    kospiRule_USDKRW none = Contrib.zero ∧
    kospiRule_DXY none = Contrib.zero ∧
    kospiRule_K200 none = Contrib.zero ∧
    kosdaqRule_NQ_d none = Contrib.zero ∧
    kosdaqRule_NQ_4h none = Contrib.zero ∧
    kosdaqRule_V9 none = Contrib.zero ∧
    kosdaqRule_MOVE none = Contrib.zero ∧
    kosdaqRule_USDKRW none = Contrib.zero ∧
    kosdaqRule_KQ_ret none = Contrib.zero ∧
    kosdaqRule_ATR none v = Contrib.zero ∧
    kosdaqRule_ATR (some x) none = Contrib.zero ∧
    kosdaqRule_long_red none = Contrib.zero := by
  refine ⟨rfl, rfl, rfl, rfl, rfl, rfl, rfl, rfl, rfl, rfl, rfl, rfl, rfl, rfl,
          rfl, rfl, rfl, rfl, rfl, rfl, ?_, rfl, ?_⟩
  · cases v <;> rfl
  · simp [kosdaqRule_long_red]

/-- C6: in both scorers the upside driver list is non-empty iff the
unclamped upside accumulator is strictly positive, and likewise for the
downside list and accumulator. -/
theorem drivers_iff_positive (gs : GlobalSignals) (ks : KosdaqSignals) :
    ((score_kospi gs).2.2.1 ≠ [] ↔ 0 < (score_kospi_raw gs).up) ∧
    ((score_kospi gs).2.2.2 ≠ [] ↔ 0 < (score_kospi_raw gs).down) ∧
    ((score_kosdaq gs ks).2.2.1 ≠ [] ↔ 0 < (score_kosdaq_raw gs ks).up) ∧
    ((score_kosdaq gs ks).2.2.2 ≠ [] ↔ 0 < (score_kosdaq_raw gs ks).down) := by
  obtain ⟨h1, h2, h3, h4⟩ := good_raw_kospi gs
  obtain ⟨g1, g2, g3, g4⟩ := good_raw_kosdaq gs ks
  refine ⟨?_, ?_, ?_, ?_⟩
  · show (score_kospi_raw gs).du ≠ [] ↔ 0 < (score_kospi_raw gs).up
    rw [ne_eq, h3]; omega
  · show (score_kospi_raw gs).dd ≠ [] ↔ 0 < (score_kospi_raw gs).down
    rw [ne_eq, h4]; omega
  · show (score_kosdaq_raw gs ks).du ≠ [] ↔ 0 < (score_kosdaq_raw gs ks).up
    rw [ne_eq, g3]; omega
  · show (score_kosdaq_raw gs ks).dd ≠ [] ↔ 0 < (score_kosdaq_raw gs ks).down
    rw [ne_eq, g4]; omega

/-- Counterexample for C8: on the shared Nasdaq-futures overnight (4h)
rule the KOSPI scorer awards 10 points and the KOSDAQ scorer 8, so the
KOSPI weight is not strictly lower than the KOSDAQ weight. -/
theorem nq4h_weight_not_lower :
    ¬ (kospiRule_NQ_4h (some 2)).up < (kosdaqRule_NQ_4h (some 2)).up := by
  norm_num [kospiRule_NQ_4h, kosdaqRule_NQ_4h, upC]

/-- C8 (amended): the KOSPI scorer assigns a strictly higher point weight
(10) to the Nasdaq-futures overnight 4h move rule than the KOSDAQ scorer
does (8). -/
theorem nq4h_weight_higher (x : ℚ) (h : x ≥ 1.2) :
    (kosdaqRule_NQ_4h (some x)).up = 8 ∧ (kospiRule_NQ_4h (some x)).up = 10 ∧
    (kosdaqRule_NQ_4h (some x)).up < (kospiRule_NQ_4h (some x)).up := by
  simp only [kospiRule_NQ_4h, kosdaqRule_NQ_4h]
  rw [if_pos h, if_pos h]
  exact ⟨rfl, rfl, by norm_num [upC]⟩

/-- Witness for C8 at the concrete firing input 2%. -/
theorem nq4h_weight_higher_witness :
    (kosdaqRule_NQ_4h (some 2)).up = 8 ∧ (kospiRule_NQ_4h (some 2)).up = 10 ∧
    (kosdaqRule_NQ_4h (some 2)).up < (kospiRule_NQ_4h (some 2)).up :=
  nq4h_weight_higher 2 (by norm_num)

/- ===== Breakout pattern classifier (report_generator.py lines 170-203,
   report_generator_20251216.py lines 105-138, stock_report.py lines
   495-537 — three verbatim copies) ===== -/

/-- One OHLCV row (시가/고가/저가/종가/거래량).  The window list is in
chronological (date-index) order, so the source's `sort_index()` is the
identity on it. -/
structure OHLCV where
  openP : ℚ
  high : ℚ
  low : ℚ
  close : ℚ
  volume : ℚ
deriving Repr, DecidableEq

instance : Inhabited OHLCV := ⟨⟨0, 0, 0, 0, 0⟩⟩

/-- `today = df_recent.iloc[-1]`. -/
def todayRow (w : List OHLCV) : OHLCV := w.getD (w.length - 1) default

/-- `prev = df_recent.iloc[-2]`. -/
def prevRow (w : List OHLCV) : OHLCV := w.getD (w.length - 2) default

/-- `total_range = max(high_today - low_today, 1e-6)`. -/
def total_range (w : List OHLCV) : ℚ :=
  max ((todayRow w).high - (todayRow w).low) 0.000001

/-- `upper_shadow_ratio = (high - max(open, close)) / total_range`. -/
def upper_shadow_ratio (w : List OHLCV) : ℚ :=
  ((todayRow w).high - max (todayRow w).openP (todayRow w).close) / total_range w

/-- `change_today = close_today / close_prev - 1`. -/
def change_today (w : List OHLCV) : ℚ :=
  (todayRow w).close / (prevRow w).close - 1

/-- Trailing volume average: 20-period mean when at least 20 bars exist,
else the mean of all available bars (`tail(20).mean()` vs `mean()`). -/
def vol_ma (w : List OHLCV) : ℚ :=
  if w.length ≥ 20 then meanQ ((w.drop (w.length - 20)).map OHLCV.volume)
  else meanQ (w.map OHLCV.volume)

/-- StrongBreakout guard: close up ≥3% and volume ≥1.5× trailing average. -/
def strong_cond (w : List OHLCV) : Prop :=
  change_today w ≥ 0.03 ∧ (todayRow w).volume ≥ 1.5 * vol_ma w

instance (w : List OHLCV) : Decidable (strong_cond w) := by
  unfold strong_cond; infer_instance

/-- MildBreakout guard: any positive change and volume ≥ trailing average. -/
def mild_cond (w : List OHLCV) : Prop :=
  change_today w > 0 ∧ (todayRow w).volume ≥ vol_ma w

instance (w : List OHLCV) : Decidable (mild_cond w) := by
  unfold mild_cond; infer_instance

/-- FalseBreakoutUpperShadow guard: non-positive change and upper-shadow
ratio above 0.6. -/
def upper_shadow_cond (w : List OHLCV) : Prop :=
  change_today w ≤ 0 ∧ upper_shadow_ratio w > 0.6

instance (w : List OHLCV) : Decidable (upper_shadow_cond w) := by
  unfold upper_shadow_cond; infer_instance

/-- BreakoutFailureCrash guard: close down at least 3%. -/
def crash_cond (w : List OHLCV) : Prop := change_today w ≤ -0.03

instance (w : List OHLCV) : Decidable (crash_cond w) := by
  unfold crash_cond; infer_instance

def lbl_strong : String := "강한 돌파"

def lbl_mild : String := "완만한 돌파"

def lbl_fake : String := "가짜 돌파(위꼬리)"

def lbl_crash : String := "돌파 후 급락"

def lbl_neutral : String := "중립"

/-- Source `classify_breakout_pattern(df_recent, is_52w_high)` of
report_generator.py (lines 170-203): empty-string sentinel when the close
is not a 52-week high, the frame is missing, or fewer than 5 rows exist;
otherwise the first matching pattern of the five-way priority chain. -/
def classify_breakout_pattern (df_recent : Option (List OHLCV))
    (is_52w_high : Bool) : String :=
  match df_recent with
  | none => ""
  | some w =>
    if is_52w_high = false ∨ w.length < 5 then ""
    else if strong_cond w then lbl_strong
    else if mild_cond w then lbl_mild
    else if upper_shadow_cond w then lbl_fake
    else if crash_cond w then lbl_crash
    else lbl_neutral

/-- Source `classify_breakout_pattern` of report_generator_20251216.py
(lines 105-138), a verbatim copy of the report_generator.py function. -/
def classify_breakout_pattern_v20251216 (df_recent : Option (List OHLCV))
    (is_52w_high : Bool) : String :=
  match df_recent with
  | none => ""
  | some w =>
    if is_52w_high = false ∨ w.length < 5 then ""
    else if strong_cond w then lbl_strong
    else if mild_cond w then lbl_mild
    else if upper_shadow_cond w then lbl_fake
    else if crash_cond w then lbl_crash
    else lbl_neutral

/-- Source `classify_breakout_pattern` of stock_report.py (lines 495-537):
the same algorithm written with early returns instead of an elif chain. -/
def classify_breakout_pattern_stock (df_recent : Option (List OHLCV))
    (is_52w_high : Bool) : String :=
  match df_recent with
  | none => ""
  | some w =>
    if is_52w_high = false ∨ w.length < 5 then ""
    else if strong_cond w then lbl_strong
    else if mild_cond w then lbl_mild
    else if upper_shadow_cond w then lbl_fake
    else if crash_cond w then lbl_crash
    else lbl_neutral

/-- C2: the classifier checks the five patterns in priority order with
first match winning — a window meeting both the StrongBreakout and the
MildBreakout guards is labelled StrongBreakout and never MildBreakout —
and yields the empty-string sentinel when `is_52w_high` is false, the
frame is missing, or fewer than 5 rows exist. -/
theorem breakout_priority (d : Option (List OHLCV)) (b : Bool)
    (w : List OHLCV) :
    classify_breakout_pattern none b = "" ∧
    classify_breakout_pattern d false = "" ∧
    (w.length < 5 → classify_breakout_pattern (some w) b = "") ∧
    (5 ≤ w.length → strong_cond w →
      classify_breakout_pattern (some w) true = lbl_strong) ∧
    (5 ≤ w.length → strong_cond w → mild_cond w →
      classify_breakout_pattern (some w) true = lbl_strong ∧
      classify_breakout_pattern (some w) true ≠ lbl_mild) ∧
    (5 ≤ w.length → ¬ strong_cond w → mild_cond w →
      classify_breakout_pattern (some w) true = lbl_mild) ∧
    (5 ≤ w.length → ¬ strong_cond w → ¬ mild_cond w → upper_shadow_cond w →
      classify_breakout_pattern (some w) true = lbl_fake) ∧
    (5 ≤ w.length → ¬ strong_cond w → ¬ mild_cond w →
      ¬ upper_shadow_cond w → crash_cond w →
      classify_breakout_pattern (some w) true = lbl_crash) ∧
    (5 ≤ w.length → ¬ strong_cond w → ¬ mild_cond w →
      ¬ upper_shadow_cond w → ¬ crash_cond w →
      classify_breakout_pattern (some w) true = lbl_neutral) := by
  refine ⟨rfl, ?_, ?_, ?_, ?_, ?_, ?_, ?_, ?_⟩
  · cases d with
    | none => rfl
    | some w0 => simp [classify_breakout_pattern]
  · intro h
    simp [classify_breakout_pattern, h]
  · intro h5 hs
    simp only [classify_breakout_pattern]
    rw [if_neg (by simp; omega), if_pos hs]
  · intro h5 hs _
    refine ⟨?_, ?_⟩
    · simp only [classify_breakout_pattern]
      rw [if_neg (by simp; omega), if_pos hs]
    · simp only [classify_breakout_pattern]
      rw [if_neg (by simp; omega), if_pos hs]
      decide
  · intro h5 hs hm
    simp only [classify_breakout_pattern]
    rw [if_neg (by simp; omega), if_neg hs, if_pos hm]
  · intro h5 hs hm hf
    simp only [classify_breakout_pattern]
    rw [if_neg (by simp; omega), if_neg hs, if_neg hm, if_pos hf]
  · intro h5 hs hm hf hc
    simp only [classify_breakout_pattern]
    rw [if_neg (by simp; omega), if_neg hs, if_neg hm, if_neg hf, if_pos hc]
  · intro h5 hs hm hf hc
    simp only [classify_breakout_pattern]
    rw [if_neg (by simp; omega), if_neg hs, if_neg hm, if_neg hf, if_neg hc]

/-- Concrete 5-row window meeting both the StrongBreakout and the
MildBreakout guards: +3% close with volume 30 against trailing average 14. -/
def exWindow : List OHLCV :=
  [⟨100, 101, 99, 100, 10⟩, ⟨100, 101, 99, 100, 10⟩, ⟨100, 101, 99, 100, 10⟩,
   ⟨100, 102, 99, 100, 10⟩, ⟨100, 104, 99, 103, 30⟩]

/-- Witness for C2: on `exWindow` both guards hold and the classifier
answers StrongBreakout, never MildBreakout; with `is_52w_high = false` it
answers the sentinel. -/
theorem breakout_priority_witness :
    (5 ≤ exWindow.length ∧ strong_cond exWindow ∧ mild_cond exWindow) ∧
    classify_breakout_pattern (some exWindow) true = lbl_strong ∧
    classify_breakout_pattern (some exWindow) true ≠ lbl_mild ∧
    classify_breakout_pattern (some exWindow) false = "" := by
  have h := breakout_priority (some exWindow) true exWindow
  have h5 : 5 ≤ exWindow.length := by norm_num [exWindow]
  have hs : strong_cond exWindow := by
    constructor
    · norm_num [change_today, todayRow, prevRow, exWindow]
    · norm_num [vol_ma, exWindow, meanQ, todayRow]
  have hm : mild_cond exWindow := by
    constructor
    · norm_num [change_today, todayRow, prevRow, exWindow]
    · norm_num [vol_ma, exWindow, meanQ, todayRow]
  obtain ⟨heq, hne⟩ := h.2.2.2.2.1 h5 hs hm
  exact ⟨⟨h5, hs, hm⟩, heq, hne, h.2.1⟩

/-- C10: the three duplicated copies of `classify_breakout_pattern` are
extensionally equal: on every window and flag all three return the same
label. -/
theorem classify_copies_equal (d : Option (List OHLCV)) (b : Bool) :
    classify_breakout_pattern_v20251216 d b = classify_breakout_pattern d b ∧
    classify_breakout_pattern_stock d b = classify_breakout_pattern d b :=
  ⟨rfl, rfl⟩

/- ===== Accumulation-strength scorer (marketSuplyReport.py,
   PremiumStockModel.fetch_detail lines 260-267) ===== -/

/-- Python `round(q)` to an integer under round-half-to-even (banker's
rounding), the documented semantics of Python's built-in `round`. -/
def roundHalfEven (q : ℚ) : ℤ :=
  if q - ⌊q⌋ < 1/2 then ⌊q⌋
  else if q - ⌊q⌋ > 1/2 then ⌊q⌋ + 1
  else if ⌊q⌋ % 2 = 0 then ⌊q⌋ else ⌊q⌋ + 1

/-- Python `round(q, 2)`: round half-to-even at two decimal places. -/
def round2 (q : ℚ) : ℚ := (roundHalfEven (q * 100) : ℚ) / 100

/-- Source accumulation-strength computation inside
`PremiumStockModel.fetch_detail` (marketSuplyReport.py lines 260-267):
`strength = round(min(max(pct3*40 + pct1*30 + pct5*20 + bonus, 0), 100), 2)`. -/
def fetch_detail_strength (pct1_mcap pct3_mcap pct5_mcap : ℚ)
    (premium_flag : Bool) : ℚ :=
  let strength_raw := pct3_mcap * 40 + pct1_mcap * 30 + pct5_mcap * 20 +
    (if premium_flag then 10 else 0)
  round2 (min (max strength_raw 0) 100)

/-- Modelled from the spec words of claim C4, for comparison only: the
clipped weighted sum `clip(flow_3d*40 + flow_1d*30 + flow_5d*20 + bonus,
0, 100)` with no rounding step. -/
def accumulation_strength_spec (pct1 pct3 pct5 : ℚ) (premium_flag : Bool) : ℚ :=
  min (max (pct3 * 40 + pct1 * 30 + pct5 * 20 +
    (if premium_flag then 10 else 0)) 0) 100

lemma roundHalfEven_nonneg {q : ℚ} (h : 0 ≤ q) : 0 ≤ roundHalfEven q := by
  have h0 : 0 ≤ ⌊q⌋ := Int.floor_nonneg.mpr h
  unfold roundHalfEven
  split_ifs <;> omega

lemma roundHalfEven_le {q : ℚ} {B : ℤ} (h : q ≤ B) : roundHalfEven q ≤ B := by
  have h1 : ⌊q⌋ ≤ B := by
    have := Int.floor_le_floor h
    simpa using this
  have hstep : 1/2 ≤ q - ⌊q⌋ → ⌊q⌋ + 1 ≤ B := by
    intro hh
    have hBq : q ≤ (B : ℚ) := h
    have hlt : (⌊q⌋ : ℚ) < (B : ℚ) := by linarith
    have : ⌊q⌋ < B := by exact_mod_cast hlt
    omega
  unfold roundHalfEven
  split_ifs with h2 h3 h4
  · exact h1
  · exact hstep (by linarith)
  · exact h1
  · exact hstep (by linarith)

lemma round2_bounds {x : ℚ} (h0 : 0 ≤ x) (h1 : x ≤ 100) :
    0 ≤ round2 x ∧ round2 x ≤ 100 := by
  have hr0 : 0 ≤ roundHalfEven (x * 100) := roundHalfEven_nonneg (by nlinarith)
  have hr1 : roundHalfEven (x * 100) ≤ (10000 : ℤ) := by
    apply roundHalfEven_le
    push_cast
    nlinarith
  unfold round2
  constructor
  · apply div_nonneg _ (by norm_num)
    exact_mod_cast hr0
  · rw [div_le_iff₀ (by norm_num)]
    calc ((roundHalfEven (x * 100) : ℚ)) ≤ ((10000 : ℤ) : ℚ) := by exact_mod_cast hr1
      _ = 100 * 100 := by norm_num

/-- Counterexample for C4: at `flow_3d_pct = 1/10000` (and the other flows
zero, no premium) the stored score is 0 while the unrounded clipped
weighted sum is 1/250 — the code rounds the clipped sum to two decimals,
so the score does not equal the bare `clip(...)` for every input. -/
theorem strength_not_unrounded_clip :
    fetch_detail_strength 0 (1/10000) 0 false ≠
      accumulation_strength_spec 0 (1/10000) 0 false := by
  have hfl : ⌊(2/5 : ℚ)⌋ = 0 := by
    rw [Int.floor_eq_iff]
    norm_num
  norm_num [fetch_detail_strength, accumulation_strength_spec, round2,
    roundHalfEven, hfl]

/-- C4 (amended): the accumulation-strength score equals the clipped
weighted sum `clip(flow_3d*40 + flow_1d*30 + flow_5d*20 + bonus, 0, 100)`
rounded to two decimal places; it always lies in [0,100], and on the
spec's example inputs (0.5, 1.0, 0.2, premium) it equals 69. -/
theorem strength_rounded_clip (p1 p3 p5 : ℚ) (pf : Bool) :
    fetch_detail_strength p1 p3 p5 pf =
      round2 (accumulation_strength_spec p1 p3 p5 pf) ∧
    0 ≤ fetch_detail_strength p1 p3 p5 pf ∧
    fetch_detail_strength p1 p3 p5 pf ≤ 100 ∧
    fetch_detail_strength (1/2) 1 (1/5) true = 69 := by
  have hmem := round2_bounds
    (le_min (le_max_right (p3 * 40 + p1 * 30 + p5 * 20 +
      (if pf then 10 else 0)) 0) (by norm_num))
    (min_le_right _ 100)
  refine ⟨rfl, hmem.1, hmem.2, ?_⟩
  have hfl : ⌊(6900 : ℚ)⌋ = 6900 := by
    rw [Int.floor_eq_iff]
    norm_num
  norm_num [fetch_detail_strength, round2, roundHalfEven, hfl]

/- ===== Composite market-condition index (marketSummary.compute_scores
   lines 234-295, duplicated as report_generator._ms_compute_scores lines
   1531-1585) ===== -/

/-- The joined daily frame consumed by `compute_scores`: columns are
functions of sorted row position, `none` standing for NaN.  `macroJoin`
is `some (FX_20d_pct, Rate_20d)` when the macro join columns are present
in the frame and `none` when they are entirely absent. -/
structure MSFrame where
  flowProxy : ℕ → Option ℚ
  indexLevel : ℕ → Option ℚ
  macroJoin : Option ((ℕ → Option ℚ) × (ℕ → Option ℚ))

/-- NaN-propagating binary arithmetic of pandas columns. -/
def optMap2 (f : ℚ → ℚ → ℚ) : Option ℚ → Option ℚ → Option ℚ
  | some a, some b => some (f a b)
  | _, _ => none

/-- The trailing window of width `w` ending at row `i`. -/
def windowVals (x : ℕ → Option ℚ) (w i : ℕ) : List (Option ℚ) :=
  (List.range w).map (fun j => x (i + 1 - w + j))

/-- pandas `rolling(w).agg`: NaN while fewer than `w` rows exist or any
value in the window is NaN, else the aggregate of the window. -/
def rollingAgg (f : List ℚ → ℚ) (w : ℕ) (x : ℕ → Option ℚ) (i : ℕ) :
    Option ℚ :=
  if i + 1 < w then none
  else if (windowVals x w i).all Option.isSome then
    some (f ((windowVals x w i).map (fun o => o.getD 0)))
  else none

/-- Minimum of a nonempty list (0 on the empty list, never reached). -/
def minL : List ℚ → ℚ
  | [] => 0
  | h :: t => t.foldl min h

/-- Maximum of a nonempty list (0 on the empty list, never reached). -/
def maxL : List ℚ → ℚ
  | [] => 0
  | h :: t => t.foldl max h

def rollingMean (w : ℕ) (x : ℕ → Option ℚ) (i : ℕ) : Option ℚ :=
  rollingAgg meanQ w x i

def rollingMin (w : ℕ) (x : ℕ → Option ℚ) (i : ℕ) : Option ℚ :=
  rollingAgg minL w x i

def rollingMax (w : ℕ) (x : ℕ → Option ℚ) (i : ℕ) : Option ℚ :=
  rollingAgg maxL w x i

/-- pandas `ffill`: the last non-NaN value at or before row `i`. -/
def ffill (x : ℕ → Option ℚ) : ℕ → Option ℚ
  | 0 => x 0
  | i + 1 =>
    match x (i + 1) with
    | some v => some v
    | none => ffill x i

/-- `base = Flow_Proxy.abs().rolling(20).mean().clip(lower=10)`. -/
def Flow_base (fr : MSFrame) (i : ℕ) : Option ℚ :=
  (rollingMean 20 (fun j => (fr.flowProxy j).map abs) i).map (fun v => max v 10)

/-- `Flow_score = (Flow_Proxy / base) * 100`. -/
def Flow_score (fr : MSFrame) (i : ℕ) : Option ℚ :=
  optMap2 (fun f b => f / b * 100) (fr.flowProxy i) (Flow_base fr i)

/-- `Trend_score = ws*(Index/MA_s - 1)*100 + wl*(Index/MA_l - 1)*100`. -/
def Trend_score (fr : MSFrame) (trend_s trend_l : ℕ) (ws wl : ℚ) (i : ℕ) :
    Option ℚ :=
  match fr.indexLevel i, rollingMean trend_s fr.indexLevel i,
      rollingMean trend_l fr.indexLevel i with
  | some a, some ms, some ml =>
    some (ws * ((a / ms - 1) * 100) + wl * ((a / ml - 1) * 100))
  | _, _, _ => none

/-- `ClosePos = (Index - low60) / rng * 100`, with the zero trailing range
replaced by NaN (`rng.replace(0, nan)`). -/
def ClosePos (fr : MSFrame) (i : ℕ) : Option ℚ :=
  match fr.indexLevel i, rollingMin 60 fr.indexLevel i,
      rollingMax 60 fr.indexLevel i with
  | some a, some lo, some hi =>
    if hi - lo = 0 then none else some ((a - lo) / (hi - lo) * 100)
  | _, _, _ => none

/-- `MA_gap = (Index / MA20 - 1) * 100`. -/
def MA_gap (fr : MSFrame) (i : ℕ) : Option ℚ :=
  optMap2 (fun a m => (a / m - 1) * 100) (fr.indexLevel i)
    (rollingMean 20 fr.indexLevel i)

/-- `Breadth_score = 0.7*((ClosePos-50)/50*100) +
0.3*(MA_gap.clip(-10,10)/10*100)`. -/
def Breadth_score (fr : MSFrame) (i : ℕ) : Option ℚ :=
  optMap2 (fun cp g =>
      (0.7 : ℚ) * ((cp - 50) / 50 * 100) +
      (0.3 : ℚ) * (clipQ (-10) 10 g / 10 * 100))
    (ClosePos fr i) (MA_gap fr i)

/-- `Macro_score`: when the macro join columns are present they are
forward-filled, remaining NaNs default to 0 and the score is
`-(0.6*FX_20d + 0.4*Rate_20d)`; when the columns are entirely absent the
score is the constant 0.  Always a plain rational — never NaN. -/
def Macro_score (fr : MSFrame) (i : ℕ) : ℚ :=
  match fr.macroJoin with
  | none => 0
  | some (fx, rt) =>
    -((0.6 : ℚ) * ((ffill fx i).getD 0) + (0.4 : ℚ) * ((ffill rt i).getD 0))

/-- Column "수급 강도" = `Flow_score.clip(-60,60)/60*100`. -/
def flowRescaled (fr : MSFrame) (i : ℕ) : Option ℚ :=
  (Flow_score fr i).map (fun v => clipQ (-60) 60 v / 60 * 100)

/-- Column "추세 강도" = `Trend_score.clip(-20,20)/20*100`. -/
def trendRescaled (fr : MSFrame) (trend_s trend_l : ℕ) (ws wl : ℚ) (i : ℕ) :
    Option ℚ :=
  (Trend_score fr trend_s trend_l ws wl i).map (fun v => clipQ (-20) 20 v / 20 * 100)

/-- Column "외부 환경 영향" = `Macro_score.clip(-5,5)/5*100` — a plain
rational, never NaN. -/
def macroRescaled (fr : MSFrame) (i : ℕ) : ℚ :=
  clipQ (-5) 5 (Macro_score fr i) / 5 * 100

/-- Segment-specific composite weight tuple: (0.35,0.25,0.25,0.15) for
KOSPI, else (0.40,0.20,0.15,0.25). -/
def msWeights (name : String) : ℚ × ℚ × ℚ × ℚ :=
  if name = "KOSPI" then (0.35, 0.25, 0.25, 0.15) else (0.40, 0.20, 0.15, 0.25)

/-- `Composite = w0*수급 + w1*추세 + w2*외부환경 + w3*시장건강도` where
"시장 건강도" is `Breadth_score` unrescaled.  NaN in any option-valued
term propagates; the macro term is a plain rational. -/
def Composite (fr : MSFrame) (trend_s trend_l : ℕ) (ws wl : ℚ)
    (name : String) (i : ℕ) : Option ℚ :=
  let w := msWeights name
  match flowRescaled fr i, trendRescaled fr trend_s trend_l ws wl i,
      Breadth_score fr i with
  | some a, some b, some d =>
    some (w.1 * a + w.2.1 * b + w.2.2.1 * macroRescaled fr i + w.2.2.2 * d)
  | _, _, _ => none

/-- C7: when the macro join columns are entirely absent the macro
sub-score is the constant 0 for every day, and — for any frame — the
composite of a day is available exactly when the flow, trend and breadth
sub-scores are, so a missing macro join never makes the composite
unavailable. -/
theorem composite_macro_degrade (fr : MSFrame) (trend_s trend_l : ℕ)
    (ws wl : ℚ) (name : String) (i : ℕ) :
    (fr.macroJoin = none → Macro_score fr i = 0) ∧
    ((Composite fr trend_s trend_l ws wl name i).isSome ↔
      ((Flow_score fr i).isSome ∧
       (Trend_score fr trend_s trend_l ws wl i).isSome ∧
       (Breadth_score fr i).isSome)) := by
  constructor
  · intro h
    simp [Macro_score, h]
  · cases hf : Flow_score fr i <;>
      cases ht : Trend_score fr trend_s trend_l ws wl i <;>
      cases hb : Breadth_score fr i <;>
      simp [Composite, flowRescaled, trendRescaled, hf, ht, hb]

/-- Frame with price and flow columns but no macro join at all. -/
def exMSFrame : MSFrame := ⟨fun _ => some 5, fun _ => some 10, none⟩

/-- Witness for C7: on a concrete macro-less frame the macro sub-score of
day 0 is 0. -/
theorem composite_macro_degrade_witness : Macro_score exMSFrame 0 = 0 :=
  (composite_macro_degrade exMSFrame 20 60 (3/5) (2/5) ("KOSPI") 0).1 rfl

/-- C9: `pct(a, b)` returns `(a/b - 1) * 100` when both operands are
available and the baseline is nonzero, and the "not available" value
whenever an operand is missing or the baseline is exactly zero. -/
theorem pct_spec (a b : ℚ) (o : Option ℚ) :
    (b ≠ 0 → pct (some a) (some b) = some ((a / b - 1) * 100)) ∧
    pct none o = none ∧
    pct o none = none ∧
    pct (some a) (some 0) = none := by
  refine ⟨fun h => ?_, rfl, ?_, ?_⟩
  · simp [pct, h]
  · cases o <;> rfl
  · simp [pct]

/-- Witness for C9 at concrete inputs: pct(3, 2) = 50 and the degenerate
cases yield the unavailable value. -/
theorem pct_spec_witness :
    pct (some 3) (some 2) = some 50 ∧
    pct none (some 2) = none ∧
    pct (some 3) none = none ∧
    pct (some 3) (some 0) = none := by
  have h := pct_spec 3 2 (some 2)
  have h2 := pct_spec 3 2 (some 3)
  refine ⟨?_, h.2.1, h2.2.2.1, h.2.2.2⟩
  have := h.1 (by norm_num)
  rw [this]
  norm_num

end StockReport
